import Mathlib

/-
  Verification development for the csv-query-agent repository.

  The repository ships a Next.js front end (src/frontend/hooks/useApi.ts,
  the page component, and the components ResultDisplay / FileUpload /
  QueryInterface found in src/unnamed) together with project documentation
  and a docker-compose file describing a FastAPI backend whose Python code
  is not part of src/.  The front-end TypeScript is embedded directly
  below; the backend pieces that some claims need (Dataset Store, Session
  Registry, orchestration loop, HTTP handlers) are modelled from the spec,
  each such definition carrying a doc comment saying so.
-/

/-! ## JavaScript semantics helpers

JSX conditional rendering and the `||` operator treat the empty string as
falsy; `String.prototype.trim` removes whitespace from both ends;
`String.prototype.startsWith` tests a literal character sequence.  These
helpers model those semantics over `Option String` / `String`. -/

/-- JS truthiness of an optional string field: an absent field and the
empty string are falsy, every other string is truthy. -/
def jsTruthy : Option String → Bool
  | some v => v != ""
  | none => false

/-- The JS expression `s || dflt` for an optional string `s`. -/
def jsOr (s : Option String) (dflt : String) : String :=
  match s with
  | some v => if v = "" then dflt else v
  | none => dflt

/-- Characters removed by JS `String.prototype.trim` (ASCII whitespace and
line terminators; the Unicode-only space separators are irrelevant here). -/
def jsWhitespaceChar (c : Char) : Bool :=
  c == ' ' || c == '\t' || c == '\n' || c == '\r' || c == '\x0b' || c == '\x0c'

/-- JS `s.trim()`: drop whitespace characters from both ends. -/
def jsTrim (s : String) : String :=
  String.mk (((s.data.dropWhile jsWhitespaceChar).reverse.dropWhile jsWhitespaceChar).reverse)

/-- JS `s.startsWith(p)`. -/
def jsStartsWith (s p : String) : Bool :=
  List.isPrefixOf p.data s.data

/-! ## Client data model (src/frontend/hooks/useApi.ts and the page) -/

/-- The `Result` interface of ResultDisplay / the page component, which is
also the `QueryResponse` interface of useApi.ts:
`{success, result?, visualization?, error?, query}`. -/
structure Result where
  success : Bool
  result : Option String
  visualization : Option String
  error : Option String
  query : String
deriving Repr, DecidableEq

/-- useApi.ts declares `QueryResponse` with exactly the same fields as the
components declare `Result`. -/
abbrev QueryResponse := Result

/-- The `UploadResponse` interface of useApi.ts, which is also the
`SessionInfo` interface of the page component:
`{session_id, filename, columns, rows, columns_count}`. -/
structure UploadResponse where
  session_id : String
  filename : String
  columns : List String
  rows : Int
  columns_count : Int
deriving Repr, DecidableEq

/-- `SessionInfo` in the page component has the same fields as
`UploadResponse`; `setSession(response)` stores one as the other. -/
abbrev SessionInfo := UploadResponse

/-! ## ResultDisplay (src/unnamed/part_001 lines 18-82, and the second
copy at src/unnamed/part_000 lines 400-445) -/

/-- What the visualization area of one result card shows. -/
inductive VizRender where
  /-- No visualization block rendered. -/
  | noViz
  /-- An `img` element whose `src` is the given string. -/
  | image (src : String)
  /-- The yellow invalid-format notice, displaying the raw string. -/
  | invalidNotice (text : String)
deriving Repr, DecidableEq

/-- The visible content of one rendered result card. -/
structure CardRender where
  /-- The `pre` block with the answer text, when rendered. -/
  resultText : Option String
  /-- The visualization area. -/
  viz : VizRender
  /-- The destructive error row text, when rendered. -/
  errorMsg : Option String
deriving Repr, DecidableEq

/-- The fixed prefix the client tests with
`result.visualization.startsWith(...)`. -/
def pngDataHeader : String := "data:image/png;base64,"

/-- Rendering of one card by the ResultDisplay component in
src/unnamed/part_001: on success it renders the answer text when truthy
and, when `visualization` is truthy, an `img` when the string starts with
`pngDataHeader` and the invalid-format notice otherwise; on failure it
renders `result.error || default` and nothing else. -/
def renderCard (r : Result) : CardRender :=
  if r.success then
    { resultText := if jsTruthy r.result then r.result else none
      viz :=
        match r.visualization with
        | some v =>
          if v = "" then .noViz
          else if jsStartsWith v pngDataHeader then .image v
          else .invalidNotice v
        | none => .noViz
      errorMsg := none }
  else
    { resultText := none
      viz := .noViz
      errorMsg := some (jsOr r.error "エラーが発生しました") }

/-- Rendering of one card by the second copy of ResultDisplay in
src/unnamed/part_000 (lines 400-445): identical to `renderCard` except
that a truthy `visualization` is always rendered as an `img`, with no
prefix test and no invalid-format notice. -/
def renderCardLegacy (r : Result) : CardRender :=
  if r.success then
    { resultText := if jsTruthy r.result then r.result else none
      viz :=
        match r.visualization with
        | some v => if v = "" then .noViz else .image v
        | none => .noViz
      errorMsg := none }
  else
    { resultText := none
      viz := .noViz
      errorMsg := some (jsOr r.error "エラーが発生しました") }

/-! ## useApi hook (src/frontend/hooks/useApi.ts)

The hook functions `uploadCsv` and `queryCsv` both run the same pattern:
set `isLoading`, clear `error`, `fetch`, and in a `try`/`catch`/`finally`:
- a parsed ok response is returned as-is;
- a non-ok response raises `new Error(errorData.detail || default)`,
  which the `catch` stores in `error` before returning `null`;
- a thrown value stores its `message` when it is an `Error`, and the
  fixed string "An error occurred" otherwise, then returns `null`;
- the `finally` always resets `isLoading` to `false`.
The observable behavior of one call is a function of how the awaited
fetch/json work resolved, which `FetchOutcome` classifies. -/

/-- The hook state pair after a call completes. -/
structure ApiState where
  isLoading : Bool
  error : Option String
deriving Repr, DecidableEq

/-- How the awaited network work of one call resolved.
`ok d`: response ok with parsed body `d`.
`notOk detail`: response not ok, the error body holding an optional
`detail` field.  `thrown (some m)`: an `Error` with message `m` was
thrown (network failure, JSON parse failure, ...).  `thrown none`: a
value that is not an `Error` was thrown. -/
inductive FetchOutcome (α : Type) where
  | ok (data : α)
  | notOk (detail : Option String)
  | thrown (message : Option String)
deriving Repr, DecidableEq

/-- The shared `try`/`catch`/`finally` body of `uploadCsv` and `queryCsv`:
returns the value the `async` function resolves with, paired with the
final hook state. -/
def apiCall {α : Type} (defaultMsg : String) (f : FetchOutcome α) :
    Option α × ApiState :=
  match f with
  | .ok d => (some d, { isLoading := false, error := none })
  | .notOk detail =>
      (none, { isLoading := false, error := some (jsOr detail defaultMsg) })
  | .thrown message =>
      (none, { isLoading := false,
               error := some (message.getD "An error occurred") })

/-- `uploadCsv` of useApi.ts, as a function of its fetch outcome. -/
def uploadCsv (f : FetchOutcome UploadResponse) :
    Option UploadResponse × ApiState :=
  apiCall "Upload failed" f

/-- `queryCsv` of useApi.ts, as a function of its fetch outcome. -/
def queryCsv (f : FetchOutcome QueryResponse) :
    Option QueryResponse × ApiState :=
  apiCall "Query failed" f

/-! ## The page component `Home` -/

/-- The page state: the current `session` and the displayed `results`
list (newest first). -/
structure HomeState where
  session : Option SessionInfo
  results : List Result
deriving Repr, DecidableEq

/-- `Home.handleUpload`: `const response = await uploadCsv(file);
if (response) { setSession(response); setResults([]) }`. -/
def handleUpload (st : HomeState) (response : Option UploadResponse) :
    HomeState :=
  match response with
  | some r => { session := some r, results := [] }
  | none => st

/-- `Home.handleQuery` after the session check: `if (response)
{ setResults([response, ...results]) }`. -/
def handleQuery (st : HomeState) (response : Option QueryResponse) :
    HomeState :=
  match response with
  | some r => { st with results := r :: st.results }
  | none => st

/-! ## QueryInterface (src/unnamed/part_001 lines 220-274) -/

/-- `QueryInterface.handleSubmit`: when `query.trim()` is truthy and
`isLoading` is false it awaits `onQuery(query)` and then clears the
textarea; otherwise nothing happens.  Returns the argument `onQuery` was
invoked with (if any) and the textarea text afterwards. -/
def handleSubmit (query : String) (isLoading : Bool) :
    Option String × String :=
  if jsTrim query ≠ "" ∧ isLoading = false then (some query, "")
  else (none, query)

/-- `QueryInterface.handleKeyDown`: plain Enter (without Shift) submits
through `handleSubmit`; any other key leaves the state alone. -/
def handleKeyDown (key : String) (shiftKey : Bool) (query : String)
    (isLoading : Bool) : Option String × String :=
  if key = "Enter" ∧ shiftKey = false then handleSubmit query isLoading
  else (none, query)

/-! ## Backend model

The FastAPI backend is described by the spec, the project documentation
and the docker-compose file in src/ (which fixes MAX_FILE_SIZE to
10485760 bytes), but its Python source is not under src/.  Everything in
this section is therefore modelled from the spec. -/

/-- The maximum upload size in bytes; the value 10485760 (10 MB) is set
in the docker-compose file in src/ and stated throughout the spec. -/
def MAX_FILE_SIZE : Nat := 10485760

/-- The session idle TTL in seconds: 30 minutes (§3 Session, §8). -/
def SESSION_TTL : Nat := 30 * 60

/-- Parse failures of the Dataset Store (§7). -/
inductive ParseError where
  | malformedInput
  | payloadTooLarge
  | encodingError
deriving Repr, DecidableEq

/-- In-memory tabular structure: named columns and ordered rows (§3). -/
structure Dataset where
  columns : List String
  rows : List (List String)
deriving Repr, DecidableEq

/-- An upload payload as the Dataset Store sees it: its byte size,
whether its bytes decode under a supported encoding, and the decoded
lines (header first, when present). -/
structure UploadPayload where
  size : Nat
  decodable : Bool
  lines : List (List String)
deriving Repr, DecidableEq

/-- Modelled from the spec: the Dataset Store contract
`parse(rawBytes, declaredEncoding?) -> Dataset | ParseError` (§4.1).
Rejects payloads over `MAX_FILE_SIZE` with `PayloadTooLarge`, an
undecodable payload with `EncodingError`, and a payload with no header
line with `MalformedInput`; otherwise the first line is the header and
the remaining lines are the data rows (zero data rows are valid). -/
def parseCsv (p : UploadPayload) : Except ParseError Dataset :=
  if p.size > MAX_FILE_SIZE then .error .payloadTooLarge
  else if p.decodable = false then .error .encodingError
  else
    match p.lines with
    | [] => .error .malformedInput
    | header :: dataRows => .ok { columns := header, rows := dataRows }

/-- One stored session of the Session Registry (§3, §4.2). -/
structure StoredSession where
  dataset : Dataset
  filename : String
  createdAt : Nat
  lastAccess : Nat
deriving Repr, DecidableEq

/-- The Session Registry state: the identifier-to-session mapping. -/
abbrev Registry := List (String × StoredSession)

/-- Association lookup in the registry. -/
def findSession : Registry → String → Option StoredSession
  | [], _ => none
  | (k, s) :: rest, id => if k = id then some s else findSession rest id

/-- Store a refreshed session under an identifier already present in the
registry (all other entries untouched). -/
def updateSession : Registry → String → StoredSession → Registry
  | [], _, _ => []
  | (k, v) :: rest, id, s₂ =>
      if k = id then (k, s₂) :: updateSession rest id s₂
      else (k, v) :: updateSession rest id s₂

/-- Modelled from the spec: `get(sessionId)` of the Session Registry
(§4.2) with lazy expiry, over an explicit clock `now` (seconds).  A
missing identifier fails; a found session whose idle time exceeds
`SESSION_TTL` is evicted and the lookup fails; otherwise the session is
returned with its last-access timestamp refreshed to `now`, and the
registry stores the refreshed session.  `none` in the first component is
the `SessionNotFound` outcome. -/
def getSession (reg : Registry) (now : Nat) (id : String) :
    Option StoredSession × Registry :=
  match findSession reg id with
  | none => (none, reg)
  | some s =>
      if now > s.lastAccess + SESSION_TTL then
        (none, reg.filter (fun kv => kv.1 != id))
      else
        let s₂ : StoredSession := { s with lastAccess := now }
        (some s₂, updateSession reg id s₂)

/-- Modelled from the spec: the `POST /upload` handler (§4.1, §4.2, §6).
Parses the payload; on failure the registry is untouched and the
`ParseError` is the 400 response; on success a session is stored under
the fresh identifier and the response body carries
`{session_id, filename, columns, rows, columns_count}`. -/
def uploadEndpoint (reg : Registry) (p : UploadPayload) (newId : String)
    (filename : String) (now : Nat) :
    Registry × Except ParseError UploadResponse :=
  match parseCsv p with
  | .error e => (reg, .error e)
  | .ok ds =>
      ((newId, { dataset := ds, filename := filename,
                 createdAt := now, lastAccess := now }) :: reg,
       .ok { session_id := newId, filename := filename,
             columns := ds.columns, rows := (ds.rows.length : Int),
             columns_count := (ds.columns.length : Int) })

/-! ## Orchestration loop model (spec §4.4, §4.5, §7) -/

/-- A requested tool invocation: operation name plus argument mapping. -/
structure ToolCall where
  name : String
  arguments : List (String × String)
deriving Repr, DecidableEq

/-- Conversation roles (§3 ConversationTurn). -/
inductive ConvRole where
  | user
  | assistant
  | tool
deriving Repr, DecidableEq

/-- One conversation turn. -/
structure ConvTurn where
  role : ConvRole
  content : String
deriving Repr, DecidableEq

/-- What one Planning step of the reasoning service returns (§4.4): zero
or more tool calls plus optionally a final answer, or a failure of the
remote call itself. -/
inductive PlanResult where
  | plan (calls : List ToolCall) (finalAnswer : Option String)
  | upstreamFailure
deriving Repr, DecidableEq

/-- The `OrchestrationError` variants (§7). -/
inductive OrchErrorKind where
  | turnLimitExceeded
  | upstreamUnavailable
  | timeout
deriving Repr, DecidableEq

/-- Terminal outcome of one orchestration run (§4.4). -/
inductive RunOutcome where
  | answering (text : String)
  | failed (e : OrchErrorKind)
deriving Repr, DecidableEq

/-- Modelled from the spec: the Planning/Acting loop of the Orchestration
Loop (§4.4), parametric in the reasoning-service behavior `planner` (a
function of the conversation so far) and the Tool Catalog execution
`execTool` (whose string result — a tool result or a tool error fed back
for replanning — is appended as a `tool` turn).  The remaining turn
budget decreases by one on every Planning round-trip; an exhausted budget
is the `TurnLimitExceeded` failure.  A Planning step with no tool calls
and a final answer is `Answering`; a reasoning-service failure is
`UpstreamUnavailable`; anything else executes the requested calls and
plans again.  Returns the outcome and the number of round-trips made. -/
def runLoop (planner : List ConvTurn → PlanResult)
    (execTool : ToolCall → String) (conv : List ConvTurn) :
    Nat → RunOutcome × Nat
  | 0 => (.failed .turnLimitExceeded, 0)
  | n + 1 =>
      match planner conv with
      | .upstreamFailure => (.failed .upstreamUnavailable, 1)
      | .plan [] (some a) => (.answering a, 1)
      | .plan calls _ =>
          let conv₂ :=
            conv ++ calls.map (fun c => ConvTurn.mk .tool (execTool c))
          let r := runLoop planner execTool conv₂ n
          (r.1, r.2 + 1)

/-- Modelled from the spec: one orchestration run over a user query, with
the conversation seeded with the question (§4.4 Initial) and the turn
budget set to the configured limit. -/
def orchestrate (planner : List ConvTurn → PlanResult)
    (execTool : ToolCall → String) (query : String) (limit : Nat) :
    RunOutcome × Nat :=
  runLoop planner execTool [ConvTurn.mk .user query] limit

/-- Modelled from the spec: the user-safe message the Response Assembler
attaches on `Failed` (§4.5, §7).  It is a fixed short message per error
kind; the `internalDetail` argument stands for whatever internal
exception text accompanied the failure and is ignored. -/
def userErrorMessage (k : OrchErrorKind) (_internalDetail : String) :
    String :=
  match k with
  | .turnLimitExceeded => "処理が既定のステップ数内に完了しませんでした"
  | .upstreamUnavailable => "外部サービスに接続できませんでした"
  | .timeout => "処理がタイムアウトしました"

/-! ## Wire shapes (spec §6) -/

/-- A JSON value, restricted to the shapes these bodies use. -/
inductive JValue where
  | jstr (s : String)
  | jnum (n : Int)
  | jflag (b : Bool)
  | jarr (xs : List String)
  | jnull
deriving Repr, DecidableEq

/-- Modelled from the spec: the JSON body of a successful `POST /upload`
response (§6), with exactly the five documented fields. -/
def uploadResponseJson (u : UploadResponse) : List (String × JValue) :=
  [("session_id", .jstr u.session_id),
   ("filename", .jstr u.filename),
   ("columns", .jarr u.columns),
   ("rows", .jnum u.rows),
   ("columns_count", .jnum u.columns_count)]

/-- The client consumption of the upload body under the `UploadResponse`
interface of useApi.ts: the body must consist of exactly the fields
`session_id` (string), `filename` (string), `columns` (array of
strings), `rows` (integer) and `columns_count` (integer). -/
def decodeUploadResponse (body : List (String × JValue)) :
    Option UploadResponse :=
  match body with
  | [("session_id", .jstr sid), ("filename", .jstr fn),
     ("columns", .jarr cols), ("rows", .jnum r),
     ("columns_count", .jnum cc)] =>
      some { session_id := sid, filename := fn, columns := cols,
             rows := r, columns_count := cc }
  | _ => none

/-- The `POST /query` response body shape
`{success, result?, visualization?, data?, error?, query}` (§6):
`success` and `query` are required, the rest optional. -/
structure QueryResponseBody where
  success : Bool
  result : Option String
  visualization : Option String
  data : Option String
  error : Option String
  query : String
deriving Repr, DecidableEq

/-- HTTP statuses the modelled handlers produce. -/
inductive HttpStatus where
  | ok200
  | badRequest400
  | notFound404
deriving Repr, DecidableEq

/-- A `POST /query` HTTP response: either a 200 body or an error body
carrying a `detail` string (the FastAPI 404 shape). -/
inductive QueryHttpBody where
  | queryBody (b : QueryResponseBody)
  | errorDetail (detail : String)
deriving Repr, DecidableEq

/-- Modelled from the spec: the `POST /query` handler (§6, §7).  An
unknown (or expired) session is a 404 `SessionNotFound`; otherwise the
orchestration run executes, and both its outcomes are HTTP 200: an
`Answering` outcome gives `success := true` with the answer text, a
`Failed` outcome gives `success := false` with the user-safe error
message.  The request query string is echoed in the body either way, and
the registry reflects the refreshed last-access timestamp. -/
def queryEndpoint (reg : Registry) (sessionId query : String)
    (planner : List ConvTurn → PlanResult) (execTool : ToolCall → String)
    (limit : Nat) (now : Nat) :
    HttpStatus × QueryHttpBody × Registry :=
  match getSession reg now sessionId with
  | (none, reg₂) => (.notFound404, .errorDetail "Session not found", reg₂)
  | (some _, reg₂) =>
      match (orchestrate planner execTool query limit).1 with
      | .answering a =>
          (.ok200,
           .queryBody { success := true, result := some a,
                        visualization := none, data := none,
                        error := none, query := query },
           reg₂)
      | .failed e =>
          (.ok200,
           .queryBody { success := false, result := none,
                        visualization := none, data := none,
                        error := some (userErrorMessage e ""),
                        query := query },
           reg₂)

/-! ## Helper lemmas -/

/-- A string whose characters are all JS whitespace trims to the empty
string. -/
theorem jsTrim_all_whitespace (q : String)
    (hw : ∀ c ∈ q.data, jsWhitespaceChar c = true) : jsTrim q = "" := by
  unfold jsTrim
  have h1 : q.data.dropWhile jsWhitespaceChar = [] :=
    List.dropWhile_eq_nil_iff.mpr hw
  rw [h1]
  rfl

/-! ## Claims -/

/-- C2 counterexample: the claim states that ResultDisplay renders an
`img` exactly when the visualization string starts with the fixed PNG
data-URL prefix, and otherwise shows an invalid-format notice.  The
second copy of ResultDisplay in src/unnamed/part_000 renders an `img`
for the non-prefixed string "abc"; the part_001 copy renders neither an
`img` nor a notice when `success` is false even though the string
carries the prefix, and renders nothing for the present-but-empty
visualization string. -/
theorem resultDisplay_prefix_cex :
    (renderCardLegacy ⟨true, none, some "abc", none, "q"⟩).viz
      = VizRender.image "abc"
    ∧ jsStartsWith "abc" pngDataHeader = false
    ∧ (renderCard ⟨false, none, some (pngDataHeader ++ "iVBOR"), none, "q"⟩).viz
      = VizRender.noViz
    ∧ jsStartsWith (pngDataHeader ++ "iVBOR") pngDataHeader = true
    ∧ (renderCard ⟨true, none, some "", none, "q"⟩).viz = VizRender.noViz := by
  decide

/-- C2 (amended): for every successful query result whose visualization
string is present and non-empty, the ResultDisplay component of
src/unnamed/part_001 renders an `img` whose source is the visualization
string if and only if the string starts with "data:image/png;base64,",
and otherwise shows the invalid-format notice instead of an image. -/
theorem resultDisplay_prefix_amended (r : Result) (v : String)
    (hs : r.success = true) (hv : r.visualization = some v)
    (hne : v ≠ "") :
    ((renderCard r).viz = VizRender.image v
      ↔ jsStartsWith v pngDataHeader = true)
    ∧ (jsStartsWith v pngDataHeader = false →
        (renderCard r).viz = VizRender.invalidNotice v) := by
  unfold renderCard
  rw [hv]
  simp only [hs, if_true, if_neg hne]
  cases hp : jsStartsWith v pngDataHeader with
  | true => simp
  | false => simp

/-- C2 witness. -/
theorem resultDisplay_prefix_amended_witness :
    ((renderCard ⟨true, none, some "xyz", none, "q"⟩).viz
      = VizRender.image "xyz"
      ↔ jsStartsWith "xyz" pngDataHeader = true)
    ∧ (jsStartsWith "xyz" pngDataHeader = false →
        (renderCard ⟨true, none, some "xyz", none, "q"⟩).viz
          = VizRender.invalidNotice "xyz") :=
  resultDisplay_prefix_amended ⟨true, none, some "xyz", none, "q"⟩ "xyz"
    rfl rfl (by decide)

/-- C4 counterexample: the claim states the client renders the error
field and substitutes the fixed default only when the field is absent.
For a failed result whose error field is present but empty, the part_001
ResultDisplay renders the default message rather than the field. -/
theorem failed_render_default_cex :
    (renderCard ⟨false, none, none, some "", "q"⟩).errorMsg
      = some "エラーが発生しました"
    ∧ (⟨false, none, none, some "", "q"⟩ : Result).error ≠ none
    ∧ ("" : String) ≠ "エラーが発生しました" := by
  decide

/-- C4 (amended): for every query result with `success = false`, the
caller-visible output carries a user-safe message that is independent of
any internal exception detail (the Response Assembler message is a
function of the error kind alone), and the client renders the error
field, substituting the fixed default message when the error field is
absent or empty, and renders neither answer text nor a visualization. -/
theorem failed_result_rendering (r : Result) (k : OrchErrorKind)
    (d d₂ m : String) (hs : r.success = false) :
    userErrorMessage k d = userErrorMessage k d₂
    ∧ (renderCard r).resultText = none
    ∧ (renderCard r).viz = VizRender.noViz
    ∧ (r.error = some m → m ≠ "" → (renderCard r).errorMsg = some m)
    ∧ (r.error = none ∨ r.error = some "" →
        (renderCard r).errorMsg = some "エラーが発生しました") := by
  refine ⟨rfl, ?_, ?_, ?_, ?_⟩ <;>
    simp only [renderCard, hs, Bool.false_eq_true, if_false]
  · intro he hm
    simp [jsOr, he, hm]
  · rintro (he | he) <;> simp [jsOr, he]

/-- C4 witness. -/
theorem failed_result_rendering_witness :
    userErrorMessage OrchErrorKind.timeout "stack frame A"
      = userErrorMessage OrchErrorKind.timeout "stack frame B"
    ∧ (renderCard ⟨false, none, none, some "boom", "q"⟩).resultText = none
    ∧ (renderCard ⟨false, none, none, some "boom", "q"⟩).viz
      = VizRender.noViz
    ∧ ((⟨false, none, none, some "boom", "q"⟩ : Result).error = some "boom" →
        "boom" ≠ "" →
        (renderCard ⟨false, none, none, some "boom", "q"⟩).errorMsg
          = some "boom")
    ∧ ((⟨false, none, none, some "boom", "q"⟩ : Result).error = none
        ∨ (⟨false, none, none, some "boom", "q"⟩ : Result).error = some "" →
        (renderCard ⟨false, none, none, some "boom", "q"⟩).errorMsg
          = some "エラーが発生しました") :=
  failed_result_rendering ⟨false, none, none, some "boom", "q"⟩
    OrchErrorKind.timeout "stack frame A" "stack frame B" "boom" rfl

/-- C8 counterexample: the claim states that on failure the error state
is set to the response's detail field or a default message.  When the
awaited work throws an `Error` (there is no response at all), the hook
stores the exception's own message, which is neither of the two default
messages of the upload path. -/
theorem api_error_message_cex :
    (uploadCsv (FetchOutcome.thrown (some "network down"))).1 = none
    ∧ (uploadCsv (FetchOutcome.thrown (some "network down"))).2.error
      = some "network down"
    ∧ ("network down" : String) ≠ "Upload failed"
    ∧ ("network down" : String) ≠ "An error occurred" := by
  decide

/-- C8 (amended): every invocation of `uploadCsv` or `queryCsv`, whatever
the outcome, terminates with `isLoading` reset to false; it returns the
parsed response exactly when no failure occurred, and otherwise returns
null with the error state set to the response's detail field (with the
per-call default substituted for an absent or empty detail) for a non-ok
HTTP response, to the thrown Error's message when one was thrown, and to
the fixed message "An error occurred" when a non-Error value was
thrown; moreover the call returns null exactly when the error state is
set. -/
theorem useApi_call_contract (f : FetchOutcome UploadResponse)
    (g : FetchOutcome QueryResponse) (u : UploadResponse)
    (q : QueryResponse) (det m : Option String) :
    (uploadCsv f).2.isLoading = false
    ∧ (queryCsv g).2.isLoading = false
    ∧ ((uploadCsv f).1 = some u ↔ f = FetchOutcome.ok u)
    ∧ ((queryCsv g).1 = some q ↔ g = FetchOutcome.ok q)
    ∧ ((uploadCsv f).1 = none ↔ (uploadCsv f).2.error ≠ none)
    ∧ ((queryCsv g).1 = none ↔ (queryCsv g).2.error ≠ none)
    ∧ (uploadCsv (FetchOutcome.notOk det)).2.error
      = some (jsOr det "Upload failed")
    ∧ (queryCsv (FetchOutcome.notOk det)).2.error
      = some (jsOr det "Query failed")
    ∧ (uploadCsv (FetchOutcome.thrown m)).2.error
      = some (m.getD "An error occurred")
    ∧ (queryCsv (FetchOutcome.thrown m)).2.error
      = some (m.getD "An error occurred") := by
  refine ⟨?_, ?_, ?_, ?_, ?_, ?_, rfl, rfl, rfl, rfl⟩ <;>
    cases f <;> cases g <;> simp [uploadCsv, queryCsv, apiCall]

/-- C9: a successful upload replaces the page's session with the new one
and empties the displayed results list; an upload that fails (uploadCsv
returned null, i.e. any non-ok fetch outcome) leaves the page state
unchanged. -/
theorem home_upload_frame (st : HomeState) (r : UploadResponse)
    (f : FetchOutcome UploadResponse) :
    (handleUpload st (some r)).session = some r
    ∧ (handleUpload st (some r)).results = []
    ∧ handleUpload st none = st
    ∧ (match (uploadCsv f).1 with
       | some u => handleUpload st (uploadCsv f).1
            = { session := some u, results := [] }
       | none => handleUpload st (uploadCsv f).1 = st) := by
  refine ⟨rfl, rfl, rfl, ?_⟩
  cases f <;> simp [uploadCsv, apiCall, handleUpload]

/-- C10: the query form invokes `onQuery` only when the trimmed query is
non-empty and no request is in flight; a whitespace-only input never
submits, by button (form submit) or by Enter; and whenever a submission
does invoke the callback it passes the untrimmed text and afterwards
clears the textarea to the empty string. -/
theorem query_submit_guard (q q₂ key a : String)
    (isLoading shiftKey : Bool)
    (hw : ∀ c ∈ q.data, jsWhitespaceChar c = true)
    (hsub : (handleSubmit q₂ isLoading).1 = some a) :
    (handleSubmit q isLoading).1 = none
    ∧ (handleKeyDown key shiftKey q isLoading).1 = none
    ∧ jsTrim q₂ ≠ "" ∧ isLoading = false ∧ a = q₂
    ∧ (handleSubmit q₂ isLoading).2 = "" := by
  have htrim : jsTrim q = "" := jsTrim_all_whitespace q hw
  have hnone : (handleSubmit q isLoading).1 = none := by
    simp [handleSubmit, htrim]
  have hguard : jsTrim q₂ ≠ "" ∧ isLoading = false := by
    by_contra hcon
    rw [handleSubmit, if_neg hcon] at hsub
    exact Option.noConfusion hsub
  refine ⟨hnone, ?_, hguard.1, hguard.2, ?_, ?_⟩
  · unfold handleKeyDown
    split
    · exact hnone
    · rfl
  · rw [handleSubmit, if_pos hguard] at hsub
    exact (Option.some.injEq _ _ ▸ hsub).symm
  · rw [handleSubmit, if_pos hguard]

/-- C10 witness. -/
theorem query_submit_guard_witness :
    (handleSubmit " \t\n " false).1 = none
    ∧ (handleKeyDown "Enter" false " \t\n " false).1 = none
    ∧ jsTrim "hello" ≠ "" ∧ false = false ∧ "hello" = "hello"
    ∧ (handleSubmit "hello" false).2 = "" :=
  query_submit_guard " \t\n " "hello" "Enter" "hello" false false
    (by decide) (by decide)

/-- C3: every upload payload larger than 10 MB is rejected with
`PayloadTooLarge` before any parsing or session creation, and the
session registry is returned unchanged — no session is stored, fully or
partially. -/
theorem oversized_upload_rejected (reg : Registry) (p : UploadPayload)
    (newId filename : String) (now : Nat)
    (h : p.size > MAX_FILE_SIZE) :
    uploadEndpoint reg p newId filename now
      = (reg, Except.error ParseError.payloadTooLarge) := by
  unfold uploadEndpoint parseCsv
  rw [if_pos h]

/-- C3 witness: a payload one byte over the limit. -/
theorem oversized_upload_rejected_witness :
    uploadEndpoint [] ⟨10485761, true, [["col1", "col2"]]⟩ "sid" "big.csv" 0
      = ([], Except.error ParseError.payloadTooLarge) :=
  oversized_upload_rejected [] ⟨10485761, true, [["col1", "col2"]]⟩
    "sid" "big.csv" 0 (by decide)

/-- C5: the successful `POST /upload` body consists of exactly the five
fields `session_id` (string), `filename` (string), `columns` (array of
strings), `rows` (integer) and `columns_count` (integer), in the
documented order, and decoding it under the client's `UploadResponse`
interface recovers exactly the sent value; every success body of the
modelled upload handler decodes this way too. -/
theorem upload_response_shape (u : UploadResponse) (reg : Registry)
    (p : UploadPayload) (newId filename : String) (now : Nat) :
    (uploadResponseJson u).map Prod.fst
      = ["session_id", "filename", "columns", "rows", "columns_count"]
    ∧ decodeUploadResponse (uploadResponseJson u) = some u
    ∧ (match (uploadEndpoint reg p newId filename now).2 with
       | .ok v =>
           decodeUploadResponse (uploadResponseJson v) = some v
           ∧ v.session_id = newId ∧ v.filename = filename
       | .error _ => True) := by
  refine ⟨rfl, rfl, ?_⟩
  unfold uploadEndpoint
  cases hp : parseCsv p with
  | error e => simp
  | ok ds => exact ⟨rfl, rfl, rfl⟩

/-- Refreshing the matching entries of the registry updates what
`findSession` returns for that identifier, provided it was present. -/
theorem findSession_refresh (reg : Registry) (id : String)
    (s s₂ : StoredSession) (hfound : findSession reg id = some s) :
    findSession (updateSession reg id s₂) id = some s₂ := by
  induction reg with
  | nil => exact Option.noConfusion hfound
  | cons kv rest ih =>
      obtain ⟨k, v⟩ := kv
      by_cases hk : k = id
      · rw [updateSession, if_pos hk, findSession, if_pos hk]
      · rw [findSession, if_neg hk] at hfound
        rw [updateSession, if_neg hk, findSession, if_neg hk]
        exact ih hfound

/-- C7: a `get` performed after the 30-minute idle TTL has elapsed since
the last access fails with SessionNotFound (`none`), while a `get`
performed while the idle time is within the TTL succeeds and refreshes
the stored last-access timestamp to the current clock, resetting the
idle clock. -/
theorem session_ttl_get (reg : Registry) (id : String)
    (s : StoredSession) (now now₂ : Nat)
    (hfound : findSession reg id = some s)
    (hexpired : now > s.lastAccess + SESSION_TTL)
    (hlive : now₂ ≤ s.lastAccess + SESSION_TTL) :
    (getSession reg now id).1 = none
    ∧ (getSession reg now₂ id).1 = some { s with lastAccess := now₂ }
    ∧ findSession (getSession reg now₂ id).2 id
      = some { s with lastAccess := now₂ } := by
  have hnot : ¬ now₂ > s.lastAccess + SESSION_TTL := Nat.not_lt.mpr hlive
  refine ⟨?_, ?_, ?_⟩
  · simp [getSession, hfound, hexpired]
  · simp [getSession, hfound, hnot]
  · simp only [getSession, hfound]
    rw [if_neg hnot]
    exact findSession_refresh reg id s _ hfound

/-- C7 witness: TTL is 1800 seconds; at 1801 seconds of idleness the
lookup fails, at 1799 seconds it succeeds and stores the refreshed
timestamp. -/
theorem session_ttl_get_witness :
    (getSession [("sid", ⟨⟨["a"], []⟩, "f.csv", 0, 0⟩)] 1801 "sid").1 = none
    ∧ (getSession [("sid", ⟨⟨["a"], []⟩, "f.csv", 0, 0⟩)] 1799 "sid").1
      = some ⟨⟨["a"], []⟩, "f.csv", 0, 1799⟩
    ∧ findSession
        (getSession [("sid", ⟨⟨["a"], []⟩, "f.csv", 0, 0⟩)] 1799 "sid").2
        "sid" = some ⟨⟨["a"], []⟩, "f.csv", 0, 1799⟩ :=
  session_ttl_get [("sid", ⟨⟨["a"], []⟩, "f.csv", 0, 0⟩)] "sid"
    ⟨⟨["a"], []⟩, "f.csv", 0, 0⟩ 1801 1799 (by decide) (by decide)
    (by decide)

/-- The loop never makes more Planning round-trips than its budget. -/
theorem runLoop_roundTrips_le (planner : List ConvTurn → PlanResult)
    (execTool : ToolCall → String) :
    ∀ (n : Nat) (conv : List ConvTurn),
      (runLoop planner execTool conv n).2 ≤ n := by
  intro n
  induction n with
  | zero => intro conv; exact Nat.le_refl 0
  | succ m ih =>
      intro conv
      rw [runLoop]
      cases hp : planner conv with
      | upstreamFailure => exact Nat.succ_le_succ (Nat.zero_le m)
      | plan calls ans =>
          cases calls with
          | nil =>
              cases ans with
              | some a => exact Nat.succ_le_succ (Nat.zero_le m)
              | none => exact Nat.succ_le_succ (ih _)
          | cons c cs => exact Nat.succ_le_succ (ih _)

/-- A reasoning service that requests tool calls on every Planning step
drives the loop into the `TurnLimitExceeded` failure. -/
theorem runLoop_always_calls (planner : List ConvTurn → PlanResult)
    (execTool : ToolCall → String)
    (hcalls : ∀ conv, ∃ calls ans,
      planner conv = PlanResult.plan calls ans ∧ calls ≠ []) :
    ∀ (n : Nat) (conv : List ConvTurn),
      (runLoop planner execTool conv n).1
        = RunOutcome.failed OrchErrorKind.turnLimitExceeded := by
  intro n
  induction n with
  | zero => intro conv; rfl
  | succ m ih =>
      intro conv
      obtain ⟨calls, ans, hp, hne⟩ := hcalls conv
      cases calls with
      | nil => exact absurd rfl hne
      | cons c cs =>
          rw [runLoop, hp]
          exact ih _

/-- C1: whatever the reasoning service does, an orchestration run over a
query terminates after at most the configured turn limit of
Planning/Acting round-trips, in one of the two terminal outcomes
(`Answering` or `Failed`); and any reasoning-service behavior that keeps
requesting tool calls on every step ends in `Failed` with
`TurnLimitExceeded`. -/
theorem orchestration_turn_limit
    (planner planner₂ : List ConvTurn → PlanResult)
    (execTool execTool₂ : ToolCall → String) (query : String)
    (limit : Nat)
    (hcalls : ∀ conv, ∃ calls ans,
      planner₂ conv = PlanResult.plan calls ans ∧ calls ≠ []) :
    (orchestrate planner execTool query limit).2 ≤ limit
    ∧ ((∃ a, (orchestrate planner execTool query limit).1
          = RunOutcome.answering a)
       ∨ ∃ e, (orchestrate planner execTool query limit).1
          = RunOutcome.failed e)
    ∧ (orchestrate planner₂ execTool₂ query limit).1
        = RunOutcome.failed OrchErrorKind.turnLimitExceeded := by
  refine ⟨runLoop_roundTrips_le planner execTool limit _, ?_,
    runLoop_always_calls planner₂ execTool₂ hcalls limit _⟩
  cases h : (orchestrate planner execTool query limit).1 with
  | answering a => exact Or.inl ⟨a, rfl⟩
  | failed e => exact Or.inr ⟨e, rfl⟩

/-- C1 witness: a planner that always asks for one more tool call, with
turn limit 3, makes exactly 3 round-trips and fails with
TurnLimitExceeded. -/
theorem orchestration_turn_limit_witness :
    (orchestrate (fun _ => PlanResult.plan [⟨"analyze_data", []⟩] none)
      (fun _ => "ok") "sum of sales" 3).2 ≤ 3
    ∧ ((∃ a, (orchestrate
          (fun _ => PlanResult.plan [⟨"analyze_data", []⟩] none)
          (fun _ => "ok") "sum of sales" 3).1 = RunOutcome.answering a)
       ∨ ∃ e, (orchestrate
          (fun _ => PlanResult.plan [⟨"analyze_data", []⟩] none)
          (fun _ => "ok") "sum of sales" 3).1 = RunOutcome.failed e)
    ∧ (orchestrate (fun _ => PlanResult.plan [⟨"analyze_data", []⟩] none)
        (fun _ => "ok") "sum of sales" 3).1
      = RunOutcome.failed OrchErrorKind.turnLimitExceeded :=
  orchestration_turn_limit
    (fun _ => PlanResult.plan [⟨"analyze_data", []⟩] none)
    (fun _ => PlanResult.plan [⟨"analyze_data", []⟩] none)
    (fun _ => "ok") (fun _ => "ok") "sum of sales" 3
    (fun _ => ⟨[⟨"analyze_data", []⟩], none, rfl, by decide⟩)

/-- C6: every `POST /query` response over a known session is HTTP 200
with a body of shape `{success, result?, visualization?, data?, error?,
query}` whose required `query` field echoes the request and whose
required `success` field is false exactly when the orchestration run
failed (and true exactly when it answered, with the answer in
`result`); an unknown or expired session gives HTTP 404 with a
SessionNotFound detail and no query body. -/
theorem query_endpoint_contract
    (reg reg₂ : Registry) (sessionId sessionId₂ query query₂ : String)
    (planner planner₂ : List ConvTurn → PlanResult)
    (execTool execTool₂ : ToolCall → String)
    (limit limit₂ now now₂ : Nat) (b : QueryResponseBody)
    (hb : (queryEndpoint reg sessionId query planner execTool limit
      now).2.1 = QueryHttpBody.queryBody b)
    (hmiss : (getSession reg₂ now₂ sessionId₂).1 = none) :
    (queryEndpoint reg sessionId query planner execTool limit now).1
      = HttpStatus.ok200
    ∧ b.query = query
    ∧ (b.success = false
        ↔ ∃ e, (orchestrate planner execTool query limit).1
            = RunOutcome.failed e)
    ∧ (b.success = true
        → ∃ a, (orchestrate planner execTool query limit).1
            = RunOutcome.answering a ∧ b.result = some a)
    ∧ queryEndpoint reg₂ sessionId₂ query₂ planner₂ execTool₂ limit₂ now₂
      = (HttpStatus.notFound404,
         QueryHttpBody.errorDetail "Session not found",
         (getSession reg₂ now₂ sessionId₂).2) := by
  have h404 : queryEndpoint reg₂ sessionId₂ query₂ planner₂ execTool₂
      limit₂ now₂
      = (HttpStatus.notFound404,
         QueryHttpBody.errorDetail "Session not found",
         (getSession reg₂ now₂ sessionId₂).2) := by
    rcases hg : getSession reg₂ now₂ sessionId₂ with ⟨o, rA⟩
    rw [hg] at hmiss
    simp only at hmiss
    subst hmiss
    simp [queryEndpoint, hg]
  rcases hgs : getSession reg now sessionId with ⟨o, regA⟩
  simp only [queryEndpoint, hgs] at hb ⊢
  cases o with
  | none => simp at hb
  | some s =>
      rcases ho : (orchestrate planner execTool query limit).1
        with a | e <;> simp only [ho] at hb ⊢ <;> cases hb
      · exact ⟨trivial, rfl, by simp, fun _ => ⟨a, rfl, rfl⟩, h404⟩
      · refine ⟨trivial, rfl, by simp [ho], ?_, h404⟩
        intro hfalse
        exact Bool.noConfusion hfalse

/-- C6 witness: a registry holding one fresh session and a planner that
answers immediately give HTTP 200 with the echoed query; querying the
empty registry gives the 404 SessionNotFound response. -/
theorem query_endpoint_contract_witness :
    (queryEndpoint [("sid", ⟨⟨["a"], []⟩, "f.csv", 0, 0⟩)] "sid" "what"
      (fun _ => PlanResult.plan [] (some "ans")) (fun _ => "") 1 10).1
      = HttpStatus.ok200
    ∧ (⟨true, some "ans", none, none, none, "what"⟩ :
        QueryResponseBody).query = "what"
    ∧ queryEndpoint [] "nope" "q"
        (fun _ => PlanResult.plan [] (some "ans")) (fun _ => "") 1 0
      = (HttpStatus.notFound404,
         QueryHttpBody.errorDetail "Session not found",
         (getSession [] 0 "nope").2) := by
  have h := query_endpoint_contract
    [("sid", ⟨⟨["a"], []⟩, "f.csv", 0, 0⟩)] [] "sid" "nope" "what" "q"
    (fun _ => PlanResult.plan [] (some "ans"))
    (fun _ => PlanResult.plan [] (some "ans"))
    (fun _ => "") (fun _ => "") 1 1 10 0
    ⟨true, some "ans", none, none, none, "what"⟩ rfl rfl
  exact ⟨h.1, h.2.1, h.2.2.2.2⟩
